import Mathlib

/-!
Verification of the stargazing app's core pipeline: the celestial search /
ranking module, the solar-system position service, and the orientation
fusion helpers (moving average, hysteresis gate, azimuth conversion, bearing
calculation).

Modelling conventions:
* JavaScript numbers are modelled as rationals; the exact arithmetic facts
  proved here (mod-360 reductions, comparisons against 0.3, sort keys) are
  the idealised real-number content of the floating-point code.
* JavaScript strings are modelled as lists of characters so that
  `toLowerCase` and `includes` are structurally computable.
* `x % y` on JavaScript numbers is the remainder after truncated division
  (the result carries the sign of the dividend); it is modelled by `jsMod`.
* `a || b` on possibly-absent strings and numbers follows JavaScript
  falsiness: `undefined`, the empty string and the number 0 select `b`.
* The external ephemeris (astronomy-engine's `Equator`) is not repository
  code; it is abstracted as a total function from body and observer to an
  (ra, dec) pair, universally quantified in every theorem about it.
* `Array.prototype.sort` with a numeric comparator is specified to produce
  a stable, sorted permutation; it is modelled by `List.insertionSort`,
  which is stable and sorted for the same comparator.
-/

namespace SkyApp

/-- JavaScript strings, modelled as their character sequences. -/
abbrev JStr := List Char

/-- Coerce a Lean string literal into the character-list model. -/
def jstr (s : String) : JStr := s.data

/-- `toLowerCase` on a JavaScript string. -/
def toLowerJs (s : JStr) : JStr := s.map Char.toLower

/-- Does `hay` start with `needle`?  Helper for substring containment. -/
def isPrefixAt : JStr → JStr → Bool
  | [], _ => true
  | _ :: _, [] => false
  | a :: as, b :: bs => a == b && isPrefixAt as bs

/-- `hay.includes(needle)` on JavaScript strings. -/
def containsSub (hay needle : JStr) : Bool :=
  match hay with
  | [] => needle.isEmpty
  | _ :: t => isPrefixAt needle hay || containsSub t needle

/-- Truncation toward zero, the rounding used by the JavaScript `%` operator. -/
def ratTrunc (q : ℚ) : ℤ := if 0 ≤ q then ⌊q⌋ else ⌈q⌉

/-- The JavaScript remainder operator `a % b`: truncated division remainder,
carrying the sign of the dividend. -/
def jsMod (a b : ℚ) : ℚ := a - b * (ratTrunc (a / b) : ℚ)

/-- JavaScript `a || b` for possibly-absent strings: `undefined` and `""` are
falsy and select `b`. -/
def jsOrStr (a b : Option JStr) : Option JStr :=
  match a with
  | some s => if s.isEmpty then b else some s
  | none => b

/-- An observation site (latitude, longitude, elevation), as built from a
location fix. -/
structure Observer where
  latitude : ℚ
  longitude : ℚ
  height : ℚ
deriving DecidableEq

/-- The closed enumeration of solar-system bodies supported by
`getBodyForName` (the `Astronomy.Body` constants the switch returns). -/
inductive Body where
  | sun | moon | mercury | venus | mars | jupiter | saturn | uranus | neptune | pluto
deriving DecidableEq

/-- One entry of the fixed `solarSystemBodies` table: id, localized proper
name, canonical name, nominal apparent magnitude. -/
structure SolarBody where
  id : JStr
  proper : JStr
  name : JStr
  mag : ℚ
deriving DecidableEq

/-- The fixed table of the 10 solar-system bodies from the source. -/
def solarSystemBodies : List SolarBody :=
  [ ⟨jstr "sun", jstr "태양", jstr "Sun", -267/10⟩,
    ⟨jstr "moon", jstr "달", jstr "Moon", -126/10⟩,
    ⟨jstr "mercury", jstr "수성", jstr "Mercury", -5/10⟩,
    ⟨jstr "venus", jstr "금성", jstr "Venus", -44/10⟩,
    ⟨jstr "mars", jstr "화성", jstr "Mars", 7/10⟩,
    ⟨jstr "jupiter", jstr "목성", jstr "Jupiter", -22/10⟩,
    ⟨jstr "saturn", jstr "토성", jstr "Saturn", 5/10⟩,
    ⟨jstr "uranus", jstr "천왕성", jstr "Uranus", 56/10⟩,
    ⟨jstr "neptune", jstr "해왕성", jstr "Neptune", 78/10⟩,
    ⟨jstr "pluto", jstr "명왕성", jstr "Pluto", 143/10⟩ ]

/-- The string switch resolving a body name (after `toLowerCase`) to a
`Body` constant; unknown names yield `none`. -/
def getBodyForName (name : JStr) : Option Body :=
  let bodyName := toLowerJs name
  if bodyName = jstr "sun" then some .sun
  else if bodyName = jstr "moon" then some .moon
  else if bodyName = jstr "mercury" then some .mercury
  else if bodyName = jstr "venus" then some .venus
  else if bodyName = jstr "mars" then some .mars
  else if bodyName = jstr "jupiter" then some .jupiter
  else if bodyName = jstr "saturn" then some .saturn
  else if bodyName = jstr "uranus" then some .uranus
  else if bodyName = jstr "neptune" then some .neptune
  else if bodyName = jstr "pluto" then some .pluto
  else none

/-- The external ephemeris capability (astronomy-engine's `Equator`): given a
body and an observer it yields topocentric apparent (ra, dec).  It is not
repository code, so it stays abstract and universally quantified. -/
abbrev Ephemeris := Body → Observer → ℚ × ℚ

/-- `calculateSolarSystemBodyPosition`: null for a missing observer, a
missing/empty name, or a name the switch does not resolve; otherwise the
ephemeris result as an (ra, dec) pair.  The guards follow the source order:
observer first, then name, then resolution. -/
def calculateSolarSystemBodyPosition (eph : Ephemeris) (bodyName : Option JStr)
    (observer : Option Observer) : Option (ℚ × ℚ) :=
  match observer with
  | none => none
  | some obs =>
    match bodyName with
    | none => none
    | some nm =>
      if nm = [] then none
      else
        match getBodyForName nm with
        | none => none
        | some b => some (eph b obs)

/-- One record of the star catalog asset (hygdata): optional id / proper /
designation, optional magnitude, fixed equatorial coordinates. -/
structure StarEntry where
  id : Option JStr
  proper : Option JStr
  name : Option JStr
  mag : Option ℚ
  ra : ℚ
  dec : ℚ
deriving DecidableEq

/-- A search result as assembled by `searchCelestial`. -/
structure CelestialResult where
  id : Option JStr
  proper : Option JStr
  name : Option JStr
  mag : Option ℚ
  ra : ℚ
  dec : ℚ
  isSolarSystemBody : Bool
deriving DecidableEq

/-- The comparator key of the final sort, `a.mag || 100`: an absent magnitude
is replaced by 100, and — because the number 0 is falsy in JavaScript — a
magnitude of exactly 0 is replaced by 100 as well. -/
def sortKey (r : CelestialResult) : ℚ :=
  match r.mag with
  | some m => if m = 0 then 100 else m
  | none => 100

/-- Modelled from the spec: the ordering key the specification describes,
"entries missing magnitude sort as if magnitude = 100"; unlike the code's
`sortKey` it keeps a present magnitude 0 at 0.  Used only to compare the
spec's ordering with the implemented one. -/
def specMagKey (r : CelestialResult) : ℚ :=
  match r.mag with
  | some m => m
  | none => 100

/-- The ordering relation of the final sort. -/
def magLe (a b : CelestialResult) : Prop := sortKey a ≤ sortKey b

instance : DecidableRel magLe := fun a b => inferInstanceAs (Decidable (sortKey a ≤ sortKey b))

instance : IsTotal CelestialResult magLe := ⟨fun a b => le_total (sortKey a) (sortKey b)⟩

instance : IsTrans CelestialResult magLe := ⟨fun _ _ _ hab hbc => le_trans hab hbc⟩

/-- Does a solar-system body's table row collide with a catalog entry, as the
dedup filter computes it: canonical name against canonical name, proper name
against proper name, both case-insensitively; a comparison against an absent
field is false. -/
def solarDupMatch (item : StarEntry) : Bool :=
  solarSystemBodies.any fun body =>
    (match item.name with
     | some s => toLowerJs body.name == toLowerJs s
     | none => false) ||
    (match item.proper with
     | some t => toLowerJs body.proper == toLowerJs t
     | none => false)

/-- The name-based match of the star pass: lowercased proper or designation
(absent fields read as the empty string) contains the query substring. -/
def starMatches (lowerText : JStr) (item : StarEntry) : Bool :=
  let properLower := match item.proper with | some p => toLowerJs p | none => []
  let nameLower := match item.name with | some p => toLowerJs p | none => []
  containsSub properLower lowerText || containsSub nameLower lowerText

/-- Projection of a catalog row into a search result (id falls back through
`star.id || star.proper || star.name`). -/
def starToResult (star : StarEntry) : CelestialResult :=
  { id := jsOrStr (jsOrStr star.id star.proper) star.name
    proper := star.proper
    name := star.name
    mag := star.mag
    ra := star.ra
    dec := star.dec
    isSolarSystemBody := false }

/-- The star-catalog pass of `searchCelestial`: drop rows colliding with a
solar-system body, keep name matches, cap at the first 20, project. -/
def starPass (starData : List StarEntry) (lowerText : JStr) : List CelestialResult :=
  (((starData.filter fun item => !solarDupMatch item && starMatches lowerText item).take 20).map
    starToResult)

/-- The solar-system pass match: lowercased proper or canonical name contains
the query substring. -/
def bodyMatches (lowerText : JStr) (body : SolarBody) : Bool :=
  containsSub (toLowerJs body.proper) lowerText || containsSub (toLowerJs body.name) lowerText

/-- The solar-system pass of `searchCelestial`: matching bodies are augmented
with a live position; a body whose position computation yields nothing is
dropped. -/
def solarPass (eph : Ephemeris) (obs : Observer) (lowerText : JStr) : List CelestialResult :=
  (solarSystemBodies.filter (bodyMatches lowerText)).filterMap fun body =>
    (calculateSolarSystemBodyPosition eph (some body.name) (some obs)).map fun pos =>
      { id := some body.id
        proper := some body.proper
        name := some body.name
        mag := some body.mag
        ra := pos.1
        dec := pos.2
        isSolarSystemBody := true }

/-- `searchCelestial`: guard on short/absent query and absent observer, run
the solar-system pass then the star pass, sort the concatenation by
`a.mag || 100` ascending (stably), truncate to 15. -/
def searchCelestial (eph : Ephemeris) (starData : List StarEntry) (query : Option JStr)
    (observer : Option Observer) : List CelestialResult :=
  match query with
  | none => []
  | some q =>
    if q.length < 2 then []
    else
      match observer with
      | none => []
      | some obs =>
        let lowerText := toLowerJs q
        let results := solarPass eph obs lowerText ++ starPass starData lowerText
        (List.insertionSort magLe results).take 15

/-- `applyMovingAverage`: push the new value, drop the oldest element once
the buffer exceeds the window, return the mean of the buffer together with
the buffer itself (the source mutates `history` in place; the pair makes the
mutation explicit). -/
def applyMovingAverage (newValue : ℚ) (history : List ℚ) (windowSize : Nat) : ℚ × List ℚ :=
  let h1 := history ++ [newValue]
  let h2 := if windowSize < h1.length then h1.tail else h1
  (h2.sum / (h2.length : ℚ), h2)

/-- The buffer after one moving-average step at the app's window size 5. -/
def stepHist (newValue : ℚ) (history : List ℚ) : List ℚ :=
  (applyMovingAverage newValue history 5).2

/-- The buffer after feeding the constant `v` another `n` times. -/
def feedConst (v : ℚ) : Nat → List ℚ → List ℚ
  | 0, h => h
  | n + 1, h => feedConst v n (stepHist v h)

/-- The hysteresis threshold (`changeThreshold = 0.3` degrees). -/
def changeThreshold : ℚ := 3/10

/-- The circular azimuth difference computed inside
`shouldUpdateOrientation`: `min(|Δaz|, 360 − |Δaz|)`. -/
def circularDiff (a b : ℚ) : ℚ := min |a - b| (360 - |a - b|)

/-- `shouldUpdateOrientation`: publish only when the circular azimuth
difference or the plain altitude difference against the last published pair
exceeds the threshold. -/
def shouldUpdateOrientation (prevAz prevAlt newAz newAlt : ℚ) : Bool :=
  let altDiff := |newAlt - prevAlt|
  let normalizedAzDiff := circularDiff newAz prevAz
  normalizedAzDiff > changeThreshold || altDiff > changeThreshold

/-- The azimuth conversion in `tryFuse`:
`az = ((heading_deg % 360) + declination + 360) % 360` with the JavaScript
remainder.  `headingDeg` is the fused heading already scaled to degrees
(`heading * 180 / π`); the scaling itself is a positive-factor change of
units carried by the caller. -/
def toAzimuthDegrees (headingDeg declination : ℚ) : ℚ :=
  jsMod (jsMod headingDeg 360 + declination + 360) 360

/-- The altitude conversion in `tryFuse`: the pitch in degrees is used
directly (`altDeg = pitch * 180 / π`, no clamping, no sign flip). -/
def toAltitudeDegrees (pitchDeg : ℚ) : ℚ := pitchDeg

/-- The right-ascension difference of `calculateDirection`: hours are scaled
by 15 to degrees, then 360 is subtracted (when above 180) or added (when
below −180) at most once each. -/
def calculateRaDiff (targetRa currentRa : ℚ) : ℚ :=
  let raDiff := targetRa * 15 - currentRa * 15
  let raDiff2 := if raDiff > 180 then raDiff - 360 else raDiff
  if raDiff2 < -180 then raDiff2 + 360 else raDiff2

/-- A concrete total ephemeris, used to instantiate universally quantified
theorems at closed inputs. -/
def eph0 : Ephemeris := fun _ _ => (0, 0)

/-- A concrete observer at the origin. -/
def obs0 : Observer := ⟨0, 0, 0⟩

/-- C2: for every query of length below 2 (the absent and empty query
included) and every observer, and for every query when the observer is
absent, `searchCelestial` returns the empty sequence. -/
theorem searchCelestial_guard_empty (eph : Ephemeris) (stars : List StarEntry)
    (query : Option JStr) (observer : Option Observer)
    (h : (∀ s, query = some s → s.length < 2) ∨ observer = none) :
    searchCelestial eph stars query observer = [] := by
  cases query with
  | none => rfl
  | some q =>
    rcases h with h | h
    · have hq : q.length < 2 := h q rfl
      simp [searchCelestial, hq]
    · subst h
      by_cases hq : q.length < 2
      · simp [searchCelestial, hq]
      · simp [searchCelestial, hq]

/-- C2 witness: the one-character query "a" with a present observer, and a
long query with an absent observer, both return the empty sequence. -/
theorem searchCelestial_guard_empty_witness :
    searchCelestial eph0 [] (some (jstr "a")) (some obs0) = []
      ∧ searchCelestial eph0 [] (some (jstr "sirius")) none = [] :=
  ⟨searchCelestial_guard_empty eph0 [] (some (jstr "a")) (some obs0)
      (Or.inl fun s hs => by cases hs; decide),
    searchCelestial_guard_empty eph0 [] (some (jstr "sirius")) none (Or.inr rfl)⟩

/-- C9: for azimuths in [0, 360), the circular azimuth difference used by
the hysteresis gate is symmetric and at most 180. -/
theorem circularDiff_symm_and_le (a b : ℚ) (ha0 : 0 ≤ a) (ha1 : a < 360)
    (hb0 : 0 ≤ b) (hb1 : b < 360) :
    circularDiff a b = circularDiff b a ∧ circularDiff a b ≤ 180 := by
  constructor
  · unfold circularDiff
    rw [abs_sub_comm]
  · unfold circularDiff
    rcases le_total |a - b| 180 with h | h
    · exact le_trans (min_le_left _ _) h
    · exact le_trans (min_le_right _ _) (by linarith)

/-- C9 witness: the gate's circular difference at the concrete azimuth pair
(10, 20). -/
theorem circularDiff_symm_and_le_witness :
    circularDiff 10 20 = circularDiff 20 10 ∧ circularDiff 10 20 ≤ 180 :=
  circularDiff_symm_and_le 10 20 (by norm_num) (by norm_num) (by norm_num) (by norm_num)

/-- C5: the gate publishes exactly when the circular azimuth difference or
the plain altitude difference exceeds 0.3 degrees; a pair 0.2 degrees away in
both channels is suppressed and a pair 0.4 degrees away is published. -/
theorem shouldUpdateOrientation_iff (pAz pAlt nAz nAlt : ℚ) :
    (shouldUpdateOrientation pAz pAlt nAz nAlt = true
      ↔ min |nAz - pAz| (360 - |nAz - pAz|) > 3/10 ∨ |nAlt - pAlt| > 3/10)
    ∧ shouldUpdateOrientation 0 0 (1/5) (1/5) = false
    ∧ shouldUpdateOrientation 0 0 (2/5) (2/5) = true := by
  refine ⟨?_, ?_, ?_⟩
  · simp [shouldUpdateOrientation, circularDiff, changeThreshold]
  · norm_num [shouldUpdateOrientation, circularDiff, changeThreshold, abs_of_nonneg, min_def]
  · norm_num [shouldUpdateOrientation, circularDiff, changeThreshold, abs_of_nonneg, min_def]

/-- C5 witness: an altitude change of 0.4 degrees from the published pair
(0, 0) triggers publication. -/
theorem shouldUpdateOrientation_iff_witness : shouldUpdateOrientation 0 0 0 (2/5) = true :=
  (shouldUpdateOrientation_iff 0 0 0 (2/5)).1.mpr
    (Or.inr (by rw [show |(2:ℚ)/5 - 0| = 2/5 by rw [abs_of_nonneg] <;> norm_num]; norm_num))

/-- C7 counterexample: both RA inputs lie in [0, 24), yet at target 0h and
current 12h the computed difference is exactly −180, which is outside the
claimed interval (−180, 180]. -/
theorem calculateRaDiff_boundary :
    (0:ℚ) ≤ 0 ∧ (0:ℚ) < 24 ∧ (0:ℚ) ≤ 12 ∧ (12:ℚ) < 24
      ∧ calculateRaDiff 0 12 = -180 ∧ ¬(-180 < calculateRaDiff 0 12) := by
  refine ⟨by norm_num, by norm_num, by norm_num, by norm_num, ?_, ?_⟩
  · norm_num [calculateRaDiff]
  · norm_num [calculateRaDiff]

/-- C7 amended: for target and current RA in [0, 24) hours, the RA
difference in degrees after the single ±360 correction lies in the closed
interval [−180, 180] (−180 is attained, e.g. at a 12-hour offset). -/
theorem calculateRaDiff_range (t c : ℚ) (ht0 : 0 ≤ t) (ht1 : t < 24)
    (hc0 : 0 ≤ c) (hc1 : c < 24) :
    -180 ≤ calculateRaDiff t c ∧ calculateRaDiff t c ≤ 180 := by
  simp only [calculateRaDiff]
  split_ifs <;> constructor <;> linarith

/-- C7 amended witness: the bearing difference at target 6h, current 2h. -/
theorem calculateRaDiff_range_witness :
    -180 ≤ calculateRaDiff 6 2 ∧ calculateRaDiff 6 2 ≤ 180 :=
  calculateRaDiff_range 6 2 (by norm_num) (by norm_num) (by norm_num) (by norm_num)

/-- C10: an entry whose magnitude is exactly 0 gets sort key 100 — the same
key as an entry with no magnitude at all — because `a.mag || 100` treats the
falsy number 0 like an absent magnitude. -/
theorem sortKey_zero_mag (r : CelestialResult) (h : r.mag = some 0) :
    sortKey r = 100 ∧ sortKey r = sortKey { r with mag := none } := by
  simp [sortKey, h]

/-- A concrete search result carrying magnitude exactly 0. -/
def resMag0 : CelestialResult := ⟨none, some (jstr "Test"), none, some 0, 0, 0, false⟩

/-- C10 witness: the magnitude-0 entry `resMag0` is keyed 100, like its
magnitude-less copy. -/
theorem sortKey_zero_mag_witness :
    sortKey resMag0 = 100 ∧ sortKey resMag0 = sortKey { resMag0 with mag := none } :=
  sortKey_zero_mag resMag0 rfl

/-- C4: the position service returns `none` (and can never throw: it is a
total function) for a missing observer, a missing or empty body name, or a
name the switch does not resolve; for a resolvable name with a present
observer it returns the ephemeris (ra, dec) pair. -/
theorem calculateSolarSystemBodyPosition_spec (eph : Ephemeris) (bodyName : Option JStr)
    (observer : Option Observer) :
    (observer = none → calculateSolarSystemBodyPosition eph bodyName observer = none)
    ∧ (bodyName = none → calculateSolarSystemBodyPosition eph bodyName observer = none)
    ∧ (∀ s, bodyName = some s → getBodyForName s = none →
        calculateSolarSystemBodyPosition eph bodyName observer = none)
    ∧ (∀ s b o, bodyName = some s → observer = some o → getBodyForName s = some b →
        calculateSolarSystemBodyPosition eph bodyName observer = some (eph b o)) := by
  refine ⟨?_, ?_, ?_, ?_⟩
  · rintro rfl
    rfl
  · rintro rfl
    cases observer <;> rfl
  · rintro s rfl hres
    cases observer with
    | none => rfl
    | some o =>
      by_cases hs : s = []
      · simp [calculateSolarSystemBodyPosition, hs]
      · simp [calculateSolarSystemBodyPosition, hs, hres]
  · rintro s b o rfl rfl hres
    have hs : ¬ s = [] := by
      intro h0
      rw [h0] at hres
      have hnone : getBodyForName ([] : JStr) = none := by decide
      rw [hnone] at hres
      cases hres
    simp [calculateSolarSystemBodyPosition, hs, hres]

/-- C4 witness: "Mars" resolves and yields the ephemeris pair; "Vulcan", a
missing name, and a missing observer all yield `none`. -/
theorem calculateSolarSystemBodyPosition_spec_witness :
    calculateSolarSystemBodyPosition eph0 (some (jstr "Mars")) (some obs0)
        = some (eph0 Body.mars obs0)
    ∧ calculateSolarSystemBodyPosition eph0 (some (jstr "Vulcan")) (some obs0) = none
    ∧ calculateSolarSystemBodyPosition eph0 none (some obs0) = none
    ∧ calculateSolarSystemBodyPosition eph0 (some (jstr "Mars")) none = none := by
  refine ⟨?_, ?_, ?_, ?_⟩
  · exact (calculateSolarSystemBodyPosition_spec eph0 _ _).2.2.2 (jstr "Mars") Body.mars obs0
      rfl rfl (by decide)
  · exact (calculateSolarSystemBodyPosition_spec eph0 _ _).2.2.1 (jstr "Vulcan") rfl (by decide)
  · exact (calculateSolarSystemBodyPosition_spec eph0 _ _).2.1 rfl
  · exact (calculateSolarSystemBodyPosition_spec eph0 _ _).1 rfl

/-- One moving-average step keeps the buffer within the window size. -/
theorem stepHist_length (v : ℚ) (h : List ℚ) (hl : h.length ≤ 5) :
    (stepHist v h).length ≤ 5 := by
  simp only [stepHist, applyMovingAverage]
  split_ifs with hif
  · simp only [List.length_tail, List.length_append, List.length_singleton]
    omega
  · simp only [List.length_append, List.length_singleton] at hif ⊢
    omega

/-- Feeding `m + n` times is feeding `n` times, then `m` more. -/
theorem feedConst_add (v : ℚ) (m n : Nat) (h : List ℚ) :
    feedConst v (m + n) h = feedConst v m (feedConst v n h) := by
  induction n generalizing h with
  | zero => rfl
  | succ n ih =>
    rw [Nat.add_succ]
    exact ih (stepHist v h)

/-- From any buffer within the window, five constant feeds fill the buffer
with the constant. -/
theorem feedConst_five (v : ℚ) (h : List ℚ) (hl : h.length ≤ 5) :
    feedConst v 5 h = List.replicate 5 v := by
  obtain _ | ⟨a, _ | ⟨b, _ | ⟨c, _ | ⟨d, _ | ⟨e, t⟩⟩⟩⟩⟩ := h
  · rfl
  · rfl
  · rfl
  · rfl
  · rfl
  · cases t with
    | nil => rfl
    | cons x xs =>
      exfalso
      simp only [List.length_cons] at hl
      omega

/-- A buffer full of the constant is a fixed point of the step. -/
theorem stepHist_replicate (v : ℚ) : stepHist v (List.replicate 5 v) = List.replicate 5 v := rfl

/-- Feeding the constant keeps the full constant buffer unchanged. -/
theorem feedConst_replicate (v : ℚ) (n : Nat) :
    feedConst v n (List.replicate 5 v) = List.replicate 5 v := by
  induction n with
  | zero => rfl
  | succ n ih =>
    have hstep : feedConst v (n + 1) (List.replicate 5 v)
        = feedConst v n (stepHist v (List.replicate 5 v)) := rfl
    rw [hstep, stepHist_replicate]
    exact ih

/-- The buffer never exceeds the window size of 5. -/
theorem feedConst_length (v : ℚ) (n : Nat) (h : List ℚ) (hl : h.length ≤ 5) :
    (feedConst v n h).length ≤ 5 := by
  induction n generalizing h with
  | zero => exact hl
  | succ n ih => exact ih (stepHist v h) (stepHist_length v h hl)

/-- C6: feeding the constant `V` at least 5 times into the window-5 moving
average makes the filtered output exactly `V` (the output of the n-th feed is
the average over the buffer after `n - 1` feeds plus the new value), and the
history buffer never holds more than 5 elements. -/
theorem movingAverage_constant (V : ℚ) (h : List ℚ) (n : Nat)
    (hl : h.length ≤ 5) (hn : 5 ≤ n) :
    (applyMovingAverage V (feedConst V (n - 1) h) 5).1 = V
    ∧ (feedConst V n h).length ≤ 5 := by
  constructor
  · have hfull : feedConst V n h = List.replicate 5 V := by
      have hsplit : n = (n - 5) + 5 := by omega
      rw [hsplit, feedConst_add, feedConst_five V h hl, feedConst_replicate]
    have hstep : stepHist V (feedConst V (n - 1) h) = feedConst V n h := by
      have h1 : feedConst V (1 + (n - 1)) h = feedConst V 1 (feedConst V (n - 1) h) :=
        feedConst_add V 1 (n - 1) h
      rw [show 1 + (n - 1) = n by omega] at h1
      exact h1.symm
    have hfst : (applyMovingAverage V (feedConst V (n - 1) h) 5).1
        = ((stepHist V (feedConst V (n - 1) h)).sum
            / ((stepHist V (feedConst V (n - 1) h)).length : ℚ)) := rfl
    rw [hfst, hstep, hfull, List.sum_replicate, List.length_replicate, nsmul_eq_mul]
    norm_num
  · exact feedConst_length V n h hl

/-- C6 witness: five feeds of the constant 7 into an empty buffer output
exactly 7, with the buffer within its bound. -/
theorem movingAverage_constant_witness :
    (applyMovingAverage 7 (feedConst 7 (5 - 1) []) 5).1 = 7
      ∧ (feedConst 7 5 ([] : List ℚ)).length ≤ 5 :=
  movingAverage_constant 7 [] 5 (by decide) (by decide)

/-- The JavaScript remainder by a positive modulus is strictly between `-b`
and `b` (its sign follows the dividend, not the modulus). -/
theorem jsMod_lt_of_pos (a b : ℚ) (hb : 0 < b) : -b < jsMod a b ∧ jsMod a b < b := by
  unfold jsMod ratTrunc
  split_ifs with hq
  · have h1 : (⌊a / b⌋ : ℚ) ≤ a / b := Int.floor_le _
    have h2 : a / b < (⌊a / b⌋ : ℚ) + 1 := Int.lt_floor_add_one _
    have m1 : b * (⌊a / b⌋ : ℚ) ≤ b * (a / b) := mul_le_mul_of_nonneg_left h1 hb.le
    have m2 : b * (a / b) < b * ((⌊a / b⌋ : ℚ) + 1) := by
      exact mul_lt_mul_of_pos_left h2 hb
    have e1 : b * (a / b) = a := by
      field_simp
    constructor
    · nlinarith
    · nlinarith
  · have h1 : a / b ≤ (⌈a / b⌉ : ℚ) := Int.le_ceil _
    have h2 : (⌈a / b⌉ : ℚ) < a / b + 1 := Int.ceil_lt_add_one _
    have m1 : b * (a / b) ≤ b * (⌈a / b⌉ : ℚ) := mul_le_mul_of_nonneg_left h1 hb.le
    have m2 : b * (⌈a / b⌉ : ℚ) < b * (a / b + 1) := mul_lt_mul_of_pos_left h2 hb
    have e1 : b * (a / b) = a := by
      field_simp
    constructor
    · nlinarith
    · nlinarith

/-- For a nonnegative dividend the JavaScript remainder is nonnegative. -/
theorem jsMod_nonneg (a b : ℚ) (ha : 0 ≤ a) (hb : 0 < b) : 0 ≤ jsMod a b := by
  unfold jsMod ratTrunc
  have hq : 0 ≤ a / b := div_nonneg ha hb.le
  rw [if_pos hq]
  have h1 : (⌊a / b⌋ : ℚ) ≤ a / b := Int.floor_le _
  have m1 : b * (⌊a / b⌋ : ℚ) ≤ b * (a / b) := mul_le_mul_of_nonneg_left h1 hb.le
  have e1 : b * (a / b) = a := by
    field_simp
  linarith

/-- C8 counterexample: at fused heading −179 degrees and session declination
−200 degrees (both platform-representable: headings are reported in [0,360),
so their one-shot difference ranges over (−360, 360)), the azimuth conversion
returns −19, which is not in [0, 360). -/
theorem toAzimuthDegrees_negative :
    toAzimuthDegrees (-179) (-200) = -19 ∧ ¬(0 ≤ toAzimuthDegrees (-179) (-200)) := by
  have t1 : ratTrunc ((-179 : ℚ) / 360) = 0 := by
    unfold ratTrunc
    rw [if_neg (by norm_num)]
    rw [Int.ceil_eq_iff]
    constructor <;> norm_num
  have t2 : ratTrunc ((-19 : ℚ) / 360) = 0 := by
    unfold ratTrunc
    rw [if_neg (by norm_num)]
    rw [Int.ceil_eq_iff]
    constructor <;> norm_num
  have e1 : jsMod (-179 : ℚ) 360 = -179 := by
    unfold jsMod
    rw [t1]
    norm_num
  have key : toAzimuthDegrees (-179) (-200) = -19 := by
    unfold toAzimuthDegrees
    rw [e1]
    rw [show (-179 : ℚ) + -200 + 360 = -19 by norm_num]
    unfold jsMod
    rw [t2]
    norm_num
  exact ⟨key, by rw [key]; norm_num⟩

/-- C8 amended: for every fused heading and every nonnegative session
declination the produced azimuth lies in [0, 360) (with a negative
declination the JavaScript remainder can go negative, as the counterexample
shows); for pitch within ±90 degrees the altitude output lies in [−90, 90]. -/
theorem toAzimuthDegrees_range (headingDeg declination pitchDeg : ℚ) :
    (0 ≤ declination →
      0 ≤ toAzimuthDegrees headingDeg declination
        ∧ toAzimuthDegrees headingDeg declination < 360)
    ∧ (-90 ≤ pitchDeg → pitchDeg ≤ 90 →
      -90 ≤ toAltitudeDegrees pitchDeg ∧ toAltitudeDegrees pitchDeg ≤ 90) := by
  constructor
  · intro hd
    unfold toAzimuthDegrees
    have hb : (0:ℚ) < 360 := by norm_num
    have hinner := (jsMod_lt_of_pos headingDeg 360 hb).1
    have hsum : 0 ≤ jsMod headingDeg 360 + declination + 360 := by linarith
    exact ⟨jsMod_nonneg _ 360 hsum hb, (jsMod_lt_of_pos _ 360 hb).2⟩
  · intro h1 h2
    exact ⟨h1, h2⟩

/-- C8 amended witness: heading 10 degrees with declination 3 gives an
azimuth in [0, 360); pitch 45 degrees gives an altitude in [−90, 90]. -/
theorem toAzimuthDegrees_range_witness :
    (0 ≤ toAzimuthDegrees 10 3 ∧ toAzimuthDegrees 10 3 < 360)
      ∧ (-90 ≤ toAltitudeDegrees 45 ∧ toAltitudeDegrees 45 ≤ 90) :=
  ⟨(toAzimuthDegrees_range 10 3 45).1 (by norm_num),
    (toAzimuthDegrees_range 10 3 45).2 (by norm_num) (by norm_num)⟩

/-- A catalog row with magnitude exactly 0 whose lowercased proper name
contains "aa". -/
def starA : StarEntry := ⟨none, some (jstr "Aaaa"), none, some 0, 1, 2⟩

/-- A catalog row with magnitude 5 whose lowercased proper name contains
"aa". -/
def starB : StarEntry := ⟨none, some (jstr "Aaab"), none, some 5, 3, 4⟩

/-- C1 counterexample: on a catalog holding a magnitude-0 star and a
magnitude-5 star, the search result places the magnitude-5 star first — the
output is not ascending in the spec's key (missing magnitude ↦ 100, present
magnitude kept), because the present magnitude 0 is keyed as 100. -/
theorem searchCelestial_not_spec_sorted :
    searchCelestial eph0 [starA, starB] (some (jstr "aa")) (some obs0)
        = [starToResult starB, starToResult starA]
    ∧ (starToResult starA).mag = some 0
    ∧ (starToResult starB).mag = some 5
    ∧ ¬ List.Pairwise (fun a b => specMagKey a ≤ specMagKey b)
        (searchCelestial eph0 [starA, starB] (some (jstr "aa")) (some obs0)) := by
  refine ⟨by decide, rfl, rfl, by decide⟩

/-- C1 amended: the sequence returned by `searchCelestial` is sorted
ascending in the implemented key `a.mag || 100` — absent magnitude, and
magnitude exactly 0, both sort as 100 — and contains at most 15 elements. -/
theorem searchCelestial_sorted (eph : Ephemeris) (stars : List StarEntry)
    (query : Option JStr) (observer : Option Observer) :
    (searchCelestial eph stars query observer).length ≤ 15
    ∧ List.Pairwise (fun a b => sortKey a ≤ sortKey b)
        (searchCelestial eph stars query observer) := by
  cases query with
  | none => exact ⟨by simp [searchCelestial], by simp [searchCelestial]⟩
  | some q =>
    by_cases hq : q.length < 2
    · constructor <;> simp [searchCelestial, hq]
    · cases observer with
      | none => constructor <;> simp [searchCelestial, hq]
      | some obs =>
        have hform : searchCelestial eph stars (some q) (some obs)
            = (List.insertionSort magLe
                (solarPass eph obs (toLowerJs q) ++ starPass stars (toLowerJs q))).take 15 := by
          simp [searchCelestial, hq]
        rw [hform]
        constructor
        · exact List.length_take_le 15 _
        · have hs : List.Sorted magLe (List.insertionSort magLe
              (solarPass eph obs (toLowerJs q) ++ starPass stars (toLowerJs q))) :=
            List.sorted_insertionSort magLe _
          exact List.Pairwise.sublist (List.take_sublist 15 _) hs

/-- The first row of the solar-system table. -/
def sunBody : SolarBody := ⟨jstr "sun", jstr "태양", jstr "Sun", -267/10⟩

/-- A catalog row whose proper name is "Sun" (colliding cross-field with the
Sun's canonical name) but whose designation "Zeta" matches no body field. -/
def starSunClash : StarEntry := ⟨none, some (jstr "Sun"), some (jstr "Zeta"), some 1, 0, 0⟩

/-- C3 counterexample: the entry whose proper name is "Sun" — an exact
case-insensitive match of the Sun's canonical name — passes the dedup filter
(which only compares name with name and proper with proper) and is returned
as a star-pass result of `searchCelestial`. -/
theorem starPass_crossField_leak :
    searchCelestial eph0 [starSunClash] (some (jstr "zeta")) (some obs0)
        = [starToResult starSunClash]
    ∧ (starToResult starSunClash).isSolarSystemBody = false
    ∧ starToResult starSunClash ∈ starPass [starSunClash] (toLowerJs (jstr "zeta"))
    ∧ sunBody ∈ solarSystemBodies
    ∧ (starToResult starSunClash).proper.map toLowerJs = some (toLowerJs sunBody.name) := by
  refine ⟨by decide, rfl, by decide, List.mem_cons_self _ _, by decide⟩

/-- C3 amended: no star-pass result has a canonical name matching a body's
canonical name, nor a proper name matching a body's proper name
(case-insensitively) — the dedup is field-aligned, not cross-field. -/
theorem starPass_dedup_aligned (stars : List StarEntry) (lowerText : JStr)
    (r : CelestialResult) (hr : r ∈ starPass stars lowerText)
    (body : SolarBody) (hb : body ∈ solarSystemBodies) :
    r.name.map toLowerJs ≠ some (toLowerJs body.name)
    ∧ r.proper.map toLowerJs ≠ some (toLowerJs body.proper) := by
  unfold starPass at hr
  obtain ⟨item, hitem, rfl⟩ := List.mem_map.1 hr
  have hmem : item ∈ stars.filter
      (fun item => !solarDupMatch item && starMatches lowerText item) :=
    List.mem_of_mem_take hitem
  have hfil := (List.mem_filter.1 hmem).2
  have hnd : solarDupMatch item = false := by
    have h1 := ((Bool.and_eq_true _ _).mp hfil).1
    simpa using h1
  have hnd2 : (solarSystemBodies.any fun b =>
      (match item.name with
       | some s => toLowerJs b.name == toLowerJs s
       | none => false) ||
      (match item.proper with
       | some t => toLowerJs b.proper == toLowerJs t
       | none => false)) = false := hnd
  rw [List.any_eq_false] at hnd2
  have hspec := hnd2 body hb
  rw [Bool.not_eq_true, Bool.or_eq_false_iff] at hspec
  obtain ⟨hn, hp⟩ := hspec
  constructor
  · intro hcontra
    cases hitemname : item.name with
    | none =>
      rw [show (starToResult item).name = item.name from rfl, hitemname] at hcontra
      cases hcontra
    | some s =>
      rw [show (starToResult item).name = item.name from rfl, hitemname] at hcontra
      have heq : toLowerJs s = toLowerJs body.name := by
        simpa using hcontra
      rw [hitemname] at hn
      simp only [beq_eq_false_iff_ne, ne_eq] at hn
      exact hn heq.symm
  · intro hcontra
    cases hitemprop : item.proper with
    | none =>
      rw [show (starToResult item).proper = item.proper from rfl, hitemprop] at hcontra
      cases hcontra
    | some t =>
      rw [show (starToResult item).proper = item.proper from rfl, hitemprop] at hcontra
      have heq : toLowerJs t = toLowerJs body.proper := by
        simpa using hcontra
      rw [hitemprop] at hp
      simp only [beq_eq_false_iff_ne, ne_eq] at hp
      exact hp heq.symm

/-- A catalog row that survives the dedup filter and matches the query
"ve". -/
def starVega : StarEntry := ⟨none, some (jstr "Vega"), none, some 0, 5, 6⟩

/-- C3 amended witness: the Vega row is a star-pass result and indeed
matches neither the Sun's canonical name field-wise nor its proper name. -/
theorem starPass_dedup_aligned_witness :
    (starToResult starVega).name.map toLowerJs ≠ some (toLowerJs sunBody.name)
    ∧ (starToResult starVega).proper.map toLowerJs ≠ some (toLowerJs sunBody.proper) :=
  starPass_dedup_aligned [starVega] (jstr "ve") (starToResult starVega) (by decide)
    sunBody (List.mem_cons_self _ _)

end SkyApp
